import Mathlib

/-!
# SemantiCast pipeline - verification of the core against its source

Shallow embedding of the SemantiCast ingestion / enrichment / aggregation /
forecast pipeline (TypeScript sources under `src/`).  JavaScript numbers are
modelled as exact rationals; the special values `NaN` and the infinities,
which can arise from division by zero, are tracked explicitly by the wrapper
type `JsNum`.  Fallible code is modelled with `Except`; the network and the
classification oracle are modelled as explicit outcome parameters, so every
definition is a total, executable function of those outcomes.
-/

/-- A JavaScript number: either `NaN`, a signed infinity (`inf true` is
positive infinity), or a finite value modelled as an exact rational. -/
inductive JsNum where
  | nan : JsNum
  | inf : Bool → JsNum
  | fin : ℚ → JsNum
deriving DecidableEq, Repr

set_option maxRecDepth 2000

namespace JsNum

/-- Sign of a nonzero rational, as a Bool (`true` = positive). -/
def sgnPos (q : ℚ) : Bool := decide (0 < q)

/-- JS unary minus. -/
def neg : JsNum → JsNum
  | nan => nan
  | inf p => inf !p
  | fin q => fin (-q)

/-- JS addition. -/
def add : JsNum → JsNum → JsNum
  | nan, _ => nan
  | _, nan => nan
  | inf p, inf q => if p = q then inf p else nan
  | inf p, fin _ => inf p
  | fin _, inf p => inf p
  | fin a, fin b => fin (a + b)

/-- JS multiplication. -/
def mul : JsNum → JsNum → JsNum
  | nan, _ => nan
  | _, nan => nan
  | inf p, inf q => inf (p == q)
  | inf p, fin a => if a = 0 then nan else inf (p == sgnPos a)
  | fin a, inf p => if a = 0 then nan else inf (p == sgnPos a)
  | fin a, fin b => fin (a * b)

/-- JS subtraction. -/
def sub (a b : JsNum) : JsNum := add a (neg b)

/-- JS division; division by zero yields an infinity, `0 / 0` yields `NaN`. -/
def div : JsNum → JsNum → JsNum
  | nan, _ => nan
  | _, nan => nan
  | inf _, inf _ => nan
  | inf p, fin a => if a = 0 then inf p else inf (p == sgnPos a)
  | fin _, inf _ => fin 0
  | fin a, fin b =>
      if b = 0 then (if a = 0 then nan else inf (sgnPos a)) else fin (a / b)

/-- Math.min (NaN-poisoning, as in JS). -/
def jmin : JsNum → JsNum → JsNum
  | nan, _ => nan
  | _, nan => nan
  | inf p, b => if p then b else inf false
  | a, inf p => if p then a else inf false
  | fin a, fin b => fin (min a b)

/-- Math.max (NaN-poisoning, as in JS). -/
def jmax : JsNum → JsNum → JsNum
  | nan, _ => nan
  | _, nan => nan
  | inf p, b => if p then inf true else b
  | a, inf p => if p then inf true else a
  | fin a, fin b => fin (max a b)

/-- Math.round: round half toward positive infinity. -/
def round : JsNum → JsNum
  | nan => nan
  | inf p => inf p
  | fin q => fin (⌊q + 1/2⌋ : ℤ)

instance : Add JsNum := ⟨JsNum.add⟩
instance : Mul JsNum := ⟨JsNum.mul⟩
instance : Sub JsNum := ⟨JsNum.sub⟩
instance : Div JsNum := ⟨JsNum.div⟩
instance : Neg JsNum := ⟨JsNum.neg⟩

@[simp] theorem fin_add_fin (a b : ℚ) : fin a + fin b = fin (a + b) := rfl

@[simp] theorem fin_mul_fin (a b : ℚ) : fin a * fin b = fin (a * b) := rfl

@[simp] theorem fin_sub_fin (a b : ℚ) : fin a - fin b = fin (a - b) := by
  show sub (fin a) (fin b) = fin (a - b)
  simp [sub, add, neg, sub_eq_add_neg]

@[simp] theorem fin_div_fin (a b : ℚ) (hb : b ≠ 0) : fin a / fin b = fin (a / b) := by
  show div (fin a) (fin b) = fin (a / b)
  simp [div, hb]

@[simp] theorem fin_div_fin_zero (a : ℚ) :
    fin a / fin 0 = if a = 0 then nan else inf (sgnPos a) := by
  show div (fin a) (fin 0) = _
  simp [div]

@[simp] theorem nan_add (b : JsNum) : nan + b = nan := by cases b <;> rfl

@[simp] theorem add_nan (a : JsNum) : a + nan = nan := by cases a <;> rfl

@[simp] theorem nan_mul (b : JsNum) : nan * b = nan := by cases b <;> rfl

@[simp] theorem mul_nan (a : JsNum) : a * nan = nan := by cases a <;> rfl

@[simp] theorem nan_div (b : JsNum) : nan / b = nan := by cases b <;> rfl

@[simp] theorem div_nan (a : JsNum) : a / nan = nan := by cases a <;> rfl

@[simp] theorem sub_nan (a : JsNum) : a - nan = nan := by cases a <;> rfl

@[simp] theorem round_nan : round nan = nan := rfl

end JsNum

/- ## Data model (src/types.ts) -/

/-- Market sentiment label (src/types.ts `Sentiment`). -/
inductive Sentiment where
  | bullish
  | bearish
  | neutral
deriving DecidableEq, Repr

/-- Short-term impact direction from sentiment classification
(src/types.ts `ImpactDirection`). -/
inductive ImpactDirection where
  | up
  | down
  | flat
deriving DecidableEq, Repr

/-- Price impact direction for the rare earth basket
(src/types.ts `RareEarthPriceImpact.direction`). -/
inductive PriceDirection where
  | up
  | down
  | uncertain
deriving DecidableEq, Repr

/-- Dominant usage category inferred by relevance assessment
(src/types.ts `RareEarthRelevance.category`). -/
inductive UsageCategory where
  | magnet
  | battery
  | mixed
  | other
deriving DecidableEq, Repr

/-- src/types.ts `Classification`. -/
structure Classification where
  sentiment : Sentiment
  impact : ImpactDirection
  confidence : JsNum
deriving DecidableEq, Repr

/-- src/types.ts `RareEarthRelevance`.  Optional TS fields are `Option`;
the `automotiveRelevant` flag is always set by the producing code paths, so
it is modelled as a plain Bool (JS treats a missing flag as false, which the
value `false` captures). -/
structure RareEarthRelevance where
  relevant : Bool
  confidence : JsNum
  matchedTerms : List String
  rationale : Option String
  automotiveRelevant : Bool
  automotiveContextTerms : List String
  category : UsageCategory
  usage : Option String
deriving DecidableEq, Repr

/-- src/types.ts `RareEarthPriceImpact`. -/
structure RareEarthPriceImpact where
  direction : PriceDirection
  confidence : JsNum
  drivers : List String
  reasoning : Option String
deriving DecidableEq, Repr

/-- src/types.ts `Article` (the normalized article shape). -/
structure Article where
  id : String
  url : String
  source : String
  title : String
  description : Option String
  publishedAt : Option String
  content : Option String
  author : Option String
  language : Option String
deriving DecidableEq, Repr

/-- src/types.ts `AggregatedSummary`, with the two nested distribution
objects flattened: `priceImpactDistribution.{up,down,uncertain}` becomes
`pidUp/pidDown/pidUncertain` and `sentimentDistribution.{bullish,bearish,
neutral}` becomes `sdBullish/sdBearish/sdNeutral`.  Count and distribution
fields are rationals (finite JS numbers); the three confidence averages are
`JsNum` because upstream clamping of oracle-supplied values can produce
`NaN` in JS. -/
structure AggregatedSummary where
  totalArticles : ℚ
  totalRelevant : ℚ
  magnetCount : ℚ
  batteryCount : ℚ
  mixedCount : ℚ
  otherCount : ℚ
  avgRelevanceConfidence : JsNum
  avgSentimentConfidence : JsNum
  avgPriceImpactConfidence : JsNum
  pidUp : ℚ
  pidDown : ℚ
  pidUncertain : ℚ
  sdBullish : ℚ
  sdBearish : ℚ
  sdNeutral : ℚ
  dominantDrivers : List String
  narrative : String
  suggestion : String
deriving DecidableEq, Repr

/-- src/types.ts `PricePrediction`.  The numeric outputs other than
`confidence` are produced by guarded arithmetic and are always finite, so
they are rationals; `confidence` is `JsNum` because its computation divides
by `totalRelevant` without a zero guard.  The human-readable `reasoning`
string is omitted: it is a pure string template that no verified claim
mentions. -/
structure PricePrediction where
  predictedChangePercent : ℚ
  predictedChangeUSD : ℚ
  confidence : JsNum
  baselineVolatility : ℚ
  newsImpactMultiplier : ℚ
  priceTarget : ℚ
  currentBasketPrice : ℚ
deriving DecidableEq, Repr

/- ## ForecastEngine (src/predictors/RareEarthMetalPredictor.ts) -/

/-- Historical 14-day average price volatility for the rare earth basket,
in percent (RareEarthMetalPredictor.BASELINE_14DAY_VOLATILITY). -/
def BASELINE_14DAY_VOLATILITY : ℚ := 3.2

/-- Reference price for the rare earth basket in USD/kg
(RareEarthMetalPredictor.BASKET_REFERENCE_PRICE). -/
def BASKET_REFERENCE_PRICE : ℚ := 95

/-- Math.round on a finite value: round half toward positive infinity. -/
def mathRound (q : ℚ) : ℚ := (⌊q + 1/2⌋ : ℤ)

/-- Math.sign on a finite value. -/
def qSign (q : ℚ) : ℚ := if 0 < q then 1 else if q < 0 then -1 else 0

/-- RareEarthMetalPredictor.calculateSentimentScore: clamped vote share of
bullish minus bearish sentiment; 0 when there are no votes. -/
def calculateSentimentScore (a : AggregatedSummary) : ℚ :=
  let total := a.sdBullish + a.sdBearish + a.sdNeutral
  if total = 0 then 0
  else max (-1) (min 1 ((a.sdBullish - a.sdBearish) / total))

/-- RareEarthMetalPredictor.calculatePriceImpactScore: clamped vote share of
up minus down price impact; 0 when there are no votes. -/
def calculatePriceImpactScore (a : AggregatedSummary) : ℚ :=
  let total := a.pidUp + a.pidDown + a.pidUncertain
  if total = 0 then 0
  else max (-1) (min 1 ((a.pidUp - a.pidDown) / total))

/-- The combined score computed inline in `predict`
(sentiment weight 0.4, price impact weight 0.6). -/
def combinedScore (a : AggregatedSummary) : ℚ :=
  calculateSentimentScore a * 0.4 + calculatePriceImpactScore a * 0.6

/-- The news impact multiplier computed inline in `predict`. -/
def newsImpactMultiplier (a : AggregatedSummary) : ℚ :=
  1 + combinedScore a * 0.8

/-- The predicted change percentage before rounding, computed inline in
`predict`. -/
def rawPredictedChangePercent (a : AggregatedSummary) : ℚ :=
  BASELINE_14DAY_VOLATILITY * newsImpactMultiplier a * qSign (combinedScore a)

/-- RareEarthMetalPredictor.calculatePredictionConfidence.  Note that the
source divides `priceImpactDistribution.uncertain` by `totalRelevant`
without guarding against `totalRelevant = 0`; the `JsNum` arithmetic tracks
the resulting `NaN`/infinity exactly as JS does. -/
def calculatePredictionConfidence (a : AggregatedSummary) : JsNum :=
  let avgConfidence :=
    (a.avgRelevanceConfidence + a.avgSentimentConfidence +
      a.avgPriceImpactConfidence) / JsNum.fin 3
  let articleFactor : ℚ := min 1 (a.totalRelevant / 30)
  let uncertainPenalty :=
    JsNum.fin 1 - JsNum.fin a.pidUncertain / JsNum.fin a.totalRelevant
  avgConfidence * JsNum.fin 0.5 + JsNum.fin articleFactor * JsNum.fin 0.3 +
    uncertainPenalty * JsNum.fin 0.2

/-- RareEarthMetalPredictor.predict. -/
def predict (a : AggregatedSummary) : PricePrediction :=
  let predictedChangePercent := rawPredictedChangePercent a
  let predictedChangeUSD := BASKET_REFERENCE_PRICE * predictedChangePercent / 100
  let priceTarget := BASKET_REFERENCE_PRICE + predictedChangeUSD
  let confidence := calculatePredictionConfidence a
  { predictedChangePercent := mathRound (predictedChangePercent * 100) / 100
    predictedChangeUSD := mathRound (predictedChangeUSD * 100) / 100
    confidence := (confidence * JsNum.fin 1000).round / JsNum.fin 1000
    baselineVolatility := BASELINE_14DAY_VOLATILITY
    newsImpactMultiplier := mathRound (newsImpactMultiplier a * 100) / 100
    priceTarget := mathRound (priceTarget * 100) / 100
    currentBasketPrice := BASKET_REFERENCE_PRICE }

/-- The hard-coded fallback aggregate built in src/index.ts when
`summarizeAggregate` rejects, with zero relevant results: a reachable
snapshot with `totalRelevant = 0`. -/
def aggregateErrorFallbackSummary : AggregatedSummary :=
  { totalArticles := 0
    totalRelevant := 0
    magnetCount := 0
    batteryCount := 0
    mixedCount := 0
    otherCount := 0
    avgRelevanceConfidence := JsNum.fin 0
    avgSentimentConfidence := JsNum.fin 0
    avgPriceImpactConfidence := JsNum.fin 0
    pidUp := 0
    pidDown := 0
    pidUncertain := 0
    sdBullish := 0
    sdBearish := 0
    sdNeutral := 0
    dominantDrivers := []
    narrative := "aggregate_error"
    suggestion := "HOLD: aggregate error fallback (informational, not financial advice)" }

/-- The end-to-end example snapshot of the spec (section 8). -/
def exampleSnapshot : AggregatedSummary :=
  { totalArticles := 8
    totalRelevant := 8
    magnetCount := 0
    batteryCount := 0
    mixedCount := 0
    otherCount := 0
    avgRelevanceConfidence := JsNum.fin 0.8
    avgSentimentConfidence := JsNum.fin 0.7
    avgPriceImpactConfidence := JsNum.fin 0.75
    pidUp := 6
    pidDown := 1
    pidUncertain := 1
    sdBullish := 5
    sdBearish := 1
    sdNeutral := 2
    dominantDrivers := []
    narrative := ""
    suggestion := "" }

/-- C2: on the reachable snapshot with `totalRelevant = 0` the code computes
`uncertainPenalty = 1 - 0/0 = NaN`, so the returned confidence is `NaN`
rather than the well-defined number the claim states; the predicted change
percent is 0 there as the claim states. -/
theorem claim2_confidence_nan_at_zero_relevant :
    (predict aggregateErrorFallbackSummary).confidence = JsNum.nan ∧
    (predict aggregateErrorFallbackSummary).predictedChangePercent = 0 := by
  constructor
  · simp [predict, calculatePredictionConfidence, aggregateErrorFallbackSummary]
  · norm_num [predict, rawPredictedChangePercent, combinedScore,
      calculateSentimentScore, calculatePriceImpactScore, newsImpactMultiplier,
      qSign, mathRound, BASELINE_14DAY_VOLATILITY, BASKET_REFERENCE_PRICE,
      aggregateErrorFallbackSummary, min_def, max_def]

/-- C6: the end-to-end forecast example of the spec, checked against the
embedded predictor: scores 0.5 / 0.625 / 0.575, multiplier 1.46, rounded
outputs 4.67 percent, 4.44 USD, price target 99.44. -/
theorem claim6_end_to_end_example :
    calculateSentimentScore exampleSnapshot = 0.5 ∧
    calculatePriceImpactScore exampleSnapshot = 0.625 ∧
    combinedScore exampleSnapshot = 0.575 ∧
    (predict exampleSnapshot).newsImpactMultiplier = 1.46 ∧
    (predict exampleSnapshot).predictedChangePercent = 4.67 ∧
    (predict exampleSnapshot).predictedChangeUSD = 4.44 ∧
    (predict exampleSnapshot).priceTarget = 99.44 := by
  refine ⟨?_, ?_, ?_, ?_, ?_, ?_, ?_⟩ <;>
    norm_num [predict, rawPredictedChangePercent, combinedScore,
      calculateSentimentScore, calculatePriceImpactScore, newsImpactMultiplier,
      qSign, mathRound, BASELINE_14DAY_VOLATILITY, BASKET_REFERENCE_PRICE,
      exampleSnapshot, min_def, max_def]

/- ## JSON values and JS coercions (for the oracle response handling in
src/services/OpenAIService.ts) -/

/-- A parsed JSON value, as produced by a successful `JSON.parse`. -/
inductive JsonValue where
  | null : JsonValue
  | bool : Bool → JsonValue
  | num : ℚ → JsonValue
  | str : String → JsonValue
  | arr : List JsonValue → JsonValue
  | obj : List (String × JsonValue) → JsonValue

/-- JS property access `v[k]`, which throws a TypeError when `v` is `null`
(the only non-object JSON value whose members cannot be read); every other
value yields the member or `undefined` (modelled as `none`). -/
def getProp : JsonValue → String → Except Unit (Option JsonValue)
  | .null, _ => .error ()
  | .obj fields, k => .ok ((fields.find? (fun p => p.1 == k)).map Prod.snd)
  | _, _ => .ok none

/-- Pure member lookup for a value already known not to be `null`. -/
def lookupProp : JsonValue → String → Option JsonValue
  | .obj fields, k => (fields.find? (fun p => p.1 == k)).map Prod.snd
  | _, _ => none

/-- JS truthiness of a JSON value. -/
def jsTruthy : JsonValue → Bool
  | .null => false
  | .bool b => b
  | .num q => decide (q ≠ 0)
  | .str s => decide (s ≠ "")
  | .arr _ => true
  | .obj _ => true

/-- JS truthiness of a possibly-undefined JSON value. -/
def truthyOpt : Option JsonValue → Bool
  | none => false
  | some v => jsTruthy v

/-- Number(string) for plain optionally-signed decimal forms; the empty
(or all-whitespace) string converts to 0.  Exponent / hex / infinity string
forms are not modelled (treated as NaN = `none`); no verified claim feeds
such strings to a numeric coercion. -/
def parseDecDigits : List Char → ℚ
  | cs => ((cs.foldl (fun n c => 10 * n + (c.toNat - 48)) 0 : ℕ) : ℚ)

/-- Unsigned decimal `digits[.digits]` parse helper for `Number(string)`. -/
def parseUnsignedDec (cs : List Char) : Option ℚ :=
  match cs.splitOn '.' with
  | [ip] => if ip ≠ [] ∧ ip.all Char.isDigit then some (parseDecDigits ip) else none
  | [ip, fp] =>
      if (ip ≠ [] ∨ fp ≠ []) ∧ ip.all Char.isDigit ∧ fp.all Char.isDigit then
        some (parseDecDigits ip + parseDecDigits fp / (10 : ℚ) ^ fp.length)
      else none
  | _ => none

/-- Number(string); `none` plays the role of NaN. -/
def parseDecString (s : String) : Option ℚ :=
  let t := s.trim
  if t = "" then some 0
  else
    match t.data with
    | '-' :: rest => (parseUnsignedDec rest).map (fun q => -q)
    | '+' :: rest => parseUnsignedDec rest
    | l => parseUnsignedDec l

/-- Number(v) on a JSON value; `none` plays the role of NaN.  A singleton
array converts through its element, as JS converts through its string
form. -/
def jsNumber : JsonValue → Option ℚ
  | .null => some 0
  | .bool b => some (if b then 1 else 0)
  | .num q => some q
  | .str s => parseDecString s
  | .arr [] => some 0
  | .arr [v] => jsNumber v
  | .arr (_ :: _ :: _) => none
  | .obj _ => none

/-- The JS idiom `Number(x) || 0`: NaN (and 0 itself) collapse to 0. -/
def numOr0 (v : Option JsonValue) : ℚ :=
  match v with
  | none => 0
  | some j =>
      match jsNumber j with
      | none => 0
      | some q => q

/-- The JS idiom `x ?? d`: `null` and `undefined` fall back to the
default. -/
def coalesce (v : Option JsonValue) (d : JsonValue) : JsonValue :=
  match v with
  | none => d
  | some .null => d
  | some j => j

/-- `Math.max(0, Math.min(1, Number(x)))` with NaN propagation. -/
def clamp01Js (v : Option ℚ) : JsNum :=
  match v with
  | none => .nan
  | some q => .fin (max 0 (min 1 q))

/-- The string elements of a JSON array, in order (the
`.filter((t) => typeof t === 'string')` idiom). -/
def strItems : List JsonValue → List String
  | [] => []
  | .str s :: rest => s :: strItems rest
  | _ :: rest => strItems rest

/-- The JS idiom `x || {}` applied to a possibly-undefined member: any falsy
value is replaced by an empty object, so later member reads cannot throw. -/
def jsOrEmptyObj (v : Option JsonValue) : JsonValue :=
  match v with
  | none => .obj []
  | some j => if jsTruthy j then j else .obj []

/- ## ClassificationOracle call outcomes -/

/-- Outcome of the JSON.parse step applied to the completion content. -/
inductive OracleParseOutcome where
  | parseFail : OracleParseOutcome
  | parseOk : JsonValue → OracleParseOutcome

/-- Outcome of one chat-completion call: either the request rejected
(`createError tls message`, where `tls` records whether the failure was the
recognised TLS issuer error), or content was delivered and parsed with the
given outcome. -/
inductive OracleCallOutcome where
  | createError : Bool → String → OracleCallOutcome
  | content : OracleParseOutcome → OracleCallOutcome

/-- OpenAIService.ts `formatTlsGuidance`. -/
def formatTlsGuidance (context msg : String) : String :=
  context ++ " TLS certificate chain not trusted. Steps:\n1. Export corporate/proxy root certificate as Base64 PEM.\n2. Save to certs/corporate-root.pem inside project.\n3. Set NODE_EXTRA_CA_CERTS=full\\path\\to\\corporate-root.pem before running.\n4. (Temporary) set ALLOW_INSECURE_OPENAI=true to bypass verification.\nError: " ++ msg

/-- OpenAIService.assessRareEarthRelevance, for a configured client, as a
function of the completion-call outcome.  Transport errors and JSON-parse
failures return a not-relevant fallback assessment; on parse success every
member read of the parsed value throws exactly when the value is `null`. -/
def assessRareEarthRelevance (outcome : OracleCallOutcome) :
    Except Unit RareEarthRelevance :=
  match outcome with
  | .createError true msg =>
      .ok { relevant := false, confidence := .fin 0.1, matchedTerms := [],
            rationale := some ((formatTlsGuidance "OpenAI" msg).take 300),
            automotiveRelevant := false, automotiveContextTerms := [],
            category := .other, usage := none }
  | .createError false _ =>
      .ok { relevant := false, confidence := .fin 0.1, matchedTerms := [],
            rationale := some "openai_error",
            automotiveRelevant := false, automotiveContextTerms := [],
            category := .other, usage := none }
  | .content .parseFail =>
      .ok { relevant := false, confidence := .fin 0.2, matchedTerms := [],
            rationale := some "parse_error",
            automotiveRelevant := false, automotiveContextTerms := [],
            category := .other, usage := none }
  | .content (.parseOk parsed) => do
      let relevantP ← getProp parsed "relevant"
      let confP ← getProp parsed "confidence"
      let mtP ← getProp parsed "matchedTerms"
      let ratP ← getProp parsed "rationale"
      let autoP ← getProp parsed "automotiveRelevant"
      let actP ← getProp parsed "automotiveContextTerms"
      let catP ← getProp parsed "category"
      let usageP ← getProp parsed "usage"
      let relevant := truthyOpt relevantP
      let confidence := clamp01Js (jsNumber (coalesce confP (.num 0.5)))
      let matchedTerms :=
        match mtP with
        | some (.arr xs) => (((strItems xs).map String.toLower).take 20)
        | _ => []
      let rationale :=
        match ratP with
        | some (.str s) => some (s.take 200)
        | _ => none
      let automotiveRelevant := relevant && truthyOpt autoP
      let automotiveContextTerms :=
        if automotiveRelevant then
          match actP with
          | some (.arr xs) => (((strItems xs).map String.toLower).take 15)
          | _ => []
        else []
      let category : UsageCategory :=
        if automotiveRelevant then
          match catP with
          | some (.str "magnet") => .magnet
          | some (.str "battery") => .battery
          | some (.str "mixed") => .mixed
          | some (.str "other") => .other
          | _ => .other
        else .other
      let usage :=
        if automotiveRelevant then
          match usageP with
          | some (.str s) => some (s.take 120)
          | _ => none
        else none
      pure { relevant := relevant, confidence := confidence,
             matchedTerms := matchedTerms, rationale := rationale,
             automotiveRelevant := automotiveRelevant,
             automotiveContextTerms := automotiveContextTerms,
             category := category, usage := usage }

/- ## AggregateComputer (src/services/OpenAIService.ts, summarizeAggregate
and helpers) -/

/-- One element of the per-article results array assembled in src/index.ts
and passed to `summarizeAggregate`. -/
structure ArticleJudgments where
  relevance : RareEarthRelevance
  classification : Classification
  priceImpact : RareEarthPriceImpact
deriving DecidableEq, Repr

/-- Sum of a list of JS numbers (the `reduce((s, i) => s + x, 0)` idiom). -/
def jsSum (l : List JsNum) : JsNum := l.foldl (· + ·) (.fin 0)

/-- OpenAIService.computeBaseMetrics: the locally computed, oracle-free part
of the aggregate.  The TS object literal carries no `suggestion` member
(every caller overwrites it); it is modelled as the empty string. -/
def computeBaseMetrics (items : List ArticleJudgments) (totalFetched : ℕ) :
    AggregatedSummary :=
  let totalRelevant := items.length
  { totalArticles := totalFetched
    totalRelevant := totalRelevant
    magnetCount := (items.countP (fun i => i.relevance.category == .magnet) : ℕ)
    batteryCount := (items.countP (fun i => i.relevance.category == .battery) : ℕ)
    mixedCount := (items.countP (fun i => i.relevance.category == .mixed) : ℕ)
    otherCount := (items.countP (fun i => i.relevance.category == .other) : ℕ)
    avgRelevanceConfidence :=
      if totalRelevant = 0 then .fin 0
      else jsSum (items.map (fun i => i.relevance.confidence)) / .fin totalRelevant
    avgSentimentConfidence :=
      if totalRelevant = 0 then .fin 0
      else jsSum (items.map (fun i => i.classification.confidence)) / .fin totalRelevant
    avgPriceImpactConfidence :=
      if totalRelevant = 0 then .fin 0
      else jsSum (items.map (fun i => i.priceImpact.confidence)) / .fin totalRelevant
    pidUp := (items.countP (fun i => i.priceImpact.direction == .up) : ℕ)
    pidDown := (items.countP (fun i => i.priceImpact.direction == .down) : ℕ)
    pidUncertain := (items.countP (fun i => i.priceImpact.direction == .uncertain) : ℕ)
    sdBullish := (items.countP (fun i => i.classification.sentiment == .bullish) : ℕ)
    sdBearish := (items.countP (fun i => i.classification.sentiment == .bearish) : ℕ)
    sdNeutral := (items.countP (fun i => i.classification.sentiment == .neutral) : ℕ)
    dominantDrivers := []
    narrative := ""
    suggestion := "" }

/-- OpenAIService.inferFallbackSuggestion: the deterministic BUY / SELL /
HOLD heuristic over the distributions, with the fixed disclaimer suffix. -/
def inferFallbackSuggestion (base : AggregatedSummary) : String :=
  let action : String :=
    if base.pidUp > base.pidDown ∧ base.sdBullish > base.sdBearish ∧
        base.pidUp ≥ base.pidDown + base.pidUncertain then "BUY"
    else if base.pidDown > base.pidUp ∧ base.sdBearish > base.sdBullish ∧
        base.pidDown ≥ base.pidUp + base.pidUncertain then "SELL"
    else "HOLD"
  action ++ ": heuristic summary based on current distributions (informational, not financial advice)"

/-- OpenAIService.buildFallbackAggregate: the fully deterministic synthesis
path. -/
def buildFallbackAggregate (items : List ArticleJudgments) (totalFetched : ℕ) :
    AggregatedSummary :=
  let base := computeBaseMetrics items totalFetched
  { base with
    dominantDrivers := []
    narrative :=
      if items.length ≠ 0 then "Automotive rare earth activity observed; AI summary unavailable."
      else "No relevant automotive rare earth articles found."
    suggestion := inferFallbackSuggestion base }

/-- OpenAIService.summarizeAggregate, success path: adopt the distributions,
drivers, narrative and suggestion of the parsed oracle response on top of
the locally computed base metrics.  The oracle counts pass through a
`Number(x) || 0` coercion only; the suggestion string is adopted verbatim
(truncated to 140 characters) whenever the member is a string. -/
def summarizeSuccessPath (items : List ArticleJudgments) (totalFetched : ℕ)
    (parsed : JsonValue) : Except Unit AggregatedSummary := do
  let aggBase := computeBaseMetrics items totalFetched
  let pidP ← getProp parsed "priceImpactDistribution"
  let pid := jsOrEmptyObj pidP
  let sdP ← getProp parsed "sentimentDistribution"
  let sd := jsOrEmptyObj sdP
  let driversP ← getProp parsed "dominantDrivers"
  let narrativeP ← getProp parsed "narrative"
  let suggestionP ← getProp parsed "suggestion"
  pure { aggBase with
    pidUp := numOr0 (lookupProp pid "up")
    pidDown := numOr0 (lookupProp pid "down")
    pidUncertain := numOr0 (lookupProp pid "uncertain")
    sdBullish := numOr0 (lookupProp sd "bullish")
    sdBearish := numOr0 (lookupProp sd "bearish")
    sdNeutral := numOr0 (lookupProp sd "neutral")
    dominantDrivers :=
      match driversP with
      | some (.arr xs) => (((strItems xs).map String.toLower).take 8)
      | _ => []
    narrative :=
      match narrativeP with
      | some (.str s) => s.take 420
      | _ => "No narrative"
    suggestion :=
      match suggestionP with
      | some (.str s) => s.take 140
      | _ => inferFallbackSuggestion aggBase }

/-- OpenAIService.summarizeAggregate: deterministic fallback when the client
is missing, the item set is empty, the call rejects, or the content does not
parse; otherwise the success path above. -/
def summarizeAggregate (clientEnabled : Bool) (items : List ArticleJudgments)
    (totalFetched : ℕ) (outcome : OracleCallOutcome) :
    Except Unit AggregatedSummary :=
  if !clientEnabled then pure (buildFallbackAggregate items totalFetched)
  else if items.length = 0 then pure (buildFallbackAggregate items totalFetched)
  else
    match outcome with
    | .createError _ _ => pure (buildFallbackAggregate items totalFetched)
    | .content .parseFail => pure (buildFallbackAggregate items totalFetched)
    | .content (.parseOk parsed) => summarizeSuccessPath items totalFetched parsed

/- ## ArticleEnricher (src/index.ts batch loop, src/classifiers) -/

/-- Substring test helper: does `s` start with `w`? -/
def charsLead : List Char → List Char → Bool
  | [], _ => true
  | _ :: _, [] => false
  | a :: w, b :: s => (a == b) && charsLead w s

/-- Substring containment over character lists. -/
def charsHaveSub (w : List Char) : List Char → Bool
  | [] => w.isEmpty
  | b :: t => charsLead w (b :: t) || charsHaveSub w t

/-- JS `String.prototype.includes`. -/
def strIncludes (s w : String) : Bool := charsHaveSub w.data s.data

/-- IronNewsAnalyzer naiveBaseline: keyword scan over the lower-cased
headline. -/
def naiveBaseline (text : String) : Classification :=
  let t := text.toLower
  let bull := ["surge", "rally", "record", "higher", "growth", "upgrade"].any
    (fun w => strIncludes t w)
  let bear := ["plunge", "drop", "miss", "lower", "fraud", "downgrade"].any
    (fun w => strIncludes t w)
  if bull && !bear then { sentiment := .bullish, impact := .up, confidence := .fin 0.7 }
  else if bear && !bull then { sentiment := .bearish, impact := .down, confidence := .fin 0.7 }
  else { sentiment := .neutral, impact := .flat, confidence := .fin 0.4 }

/-- IronNewsAnalyzer.analyze: use the oracle classification when the client
is enabled and the call succeeds; any failure (and the disabled case) falls
back to the naive keyword baseline over the headline. -/
def ironNewsAnalyzerAnalyze (aiEnabled : Bool)
    (oracle : Except Unit Classification) (headline : String) : Classification :=
  if aiEnabled then
    match oracle with
    | .ok c => c
    | .error _ => naiveBaseline headline
  else naiveBaseline headline

/-- RareEarthMetalAnalyzer.priceImpact: use the oracle assessment when the
client is enabled and the call succeeds; any failure (and the disabled case)
returns the uncertain low-confidence default. -/
def rareEarthAnalyzerPriceImpact (aiEnabled : Bool)
    (oracle : Except Unit RareEarthPriceImpact) : RareEarthPriceImpact :=
  if aiEnabled then
    match oracle with
    | .ok p => p
    | .error _ =>
        { direction := .uncertain, confidence := .fin 0.2, drivers := [],
          reasoning := some "ai_disabled" }
  else
    { direction := .uncertain, confidence := .fin 0.2, drivers := [],
      reasoning := some "ai_disabled" }

/-- The outcomes of the (up to three) oracle calls made for one article. -/
structure ArticleOracleOutcomes where
  relevance : Except Unit RareEarthRelevance
  classify : Except Unit Classification
  impact : Except Unit RareEarthPriceImpact

/-- The per-article record accumulated by the batch loop in src/index.ts. -/
structure EnrichedRecord where
  article : Article
  relevance : RareEarthRelevance
  classification : Classification
  priceImpact : RareEarthPriceImpact
deriving DecidableEq, Repr

/-- The static relevance value used in src/index.ts when the AI client is
disabled. -/
def aiDisabledRelevance : RareEarthRelevance :=
  { relevant := false, confidence := .fin 0, matchedTerms := [],
    rationale := some "ai_disabled", automotiveRelevant := false,
    automotiveContextTerms := [], category := .other, usage := none }

/-- One iteration of the `batchPromises` map in src/index.ts: a failed
relevance call drops the article (`none`), an irrelevant or
non-automotive-relevant article is filtered (`none`), and otherwise the
sentiment and price-impact calls (which cannot reject, their analyzers catch
internally) complete the record. -/
def processArticle (aiEnabled : Bool)
    (input : Article × ArticleOracleOutcomes) : Option EnrichedRecord :=
  let a := input.1
  let o := input.2
  let step : Except Unit RareEarthRelevance :=
    if aiEnabled then o.relevance else .ok aiDisabledRelevance
  match step with
  | .error _ => none
  | .ok relevance =>
      if relevance.relevant && relevance.automotiveRelevant then
        some { article := a
               relevance := relevance
               classification := ironNewsAnalyzerAnalyze aiEnabled o.classify a.title
               priceImpact := rareEarthAnalyzerPriceImpact aiEnabled o.impact }
      else none

/-- src/index.ts BATCH_SIZE. -/
def BATCH_SIZE : ℕ := 10

/-- The batch loop of src/index.ts: process the articles in groups of
`BATCH_SIZE`, appending the non-null results of each group before starting
the next group. -/
def processBatches (aiEnabled : Bool) :
    List (Article × ArticleOracleOutcomes) → List EnrichedRecord
  | [] => []
  | a :: t =>
      ((a :: t).take BATCH_SIZE).filterMap (processArticle aiEnabled) ++
        processBatches aiEnabled ((a :: t).drop BATCH_SIZE)
termination_by l => l.length
decreasing_by simp [BATCH_SIZE]; omega

/- ## SourceFetcher (src/fetchers/NewsApiFetcher.ts) -/

/-- The raw article shape delivered by the provider, before
normalization. -/
structure RawArticle where
  url : String
  sourceName : Option String
  title : Option String
  description : Option String
  publishedAt : Option String
  content : Option String
  author : Option String
deriving DecidableEq, Repr

/-- The JS idiom `x || undefined` on an optional string: the empty string
collapses to undefined. -/
def strOrNone (o : Option String) : Option String :=
  match o with
  | some s => if s = "" then none else some s
  | none => none

/-- NewsApiFetcher.ts normalizeNewsApiArticle: the canonical identifier is
the article URL. -/
def normalizeNewsApiArticle (a : RawArticle) : Article :=
  { id := a.url
    url := a.url
    source :=
      match a.sourceName with
      | some s => if s = "" then "unknown" else s
      | none => "unknown"
    title := a.title.getD ""
    description := strOrNone a.description
    publishedAt := strOrNone a.publishedAt
    content := strOrNone a.content
    author := strOrNone a.author
    language := some "en" }

/-- The error taxonomy of the fetch path: rate-limit retries exhausted, or a
non-success non-rate-limit HTTP response with its status and body. -/
inductive FetchErr where
  | rateLimitExceeded : FetchErr
  | upstreamError : ℕ → String → FetchErr
deriving DecidableEq, Repr

/-- An HTTP response as seen by fetchWithRetry; the parsed article payload
(`json.articles ?? []`, already shaped) rides along for the success case.
Network-level rejections (which fetchWithRetry rethrows unchanged) are not
modelled: the verified claims concern the response-driven paths. -/
structure HttpResponse where
  status : ℕ
  body : String
  articles : List RawArticle

/-- Fetch API `res.ok`. -/
def HttpResponse.ok (r : HttpResponse) : Bool := 200 ≤ r.status && r.status < 300

/-- NewsApiFetcher.fetchWithRetry as a function of the per-attempt responses
`net`: a 429 retries with the attempt counter incremented until
`attempt > 3`, at which point the rate-limit failure surfaces; a non-ok,
non-429 response surfaces an upstream failure with status and body. -/
def fetchWithRetry (net : ℕ → HttpResponse) (attempt : ℕ) :
    Except FetchErr HttpResponse :=
  let res := net attempt
  if res.status = 429 then
    if h : attempt > 3 then .error .rateLimitExceeded
    else fetchWithRetry net (attempt + 1)
  else if res.ok then .ok res
  else .error (.upstreamError res.status res.body)
termination_by 4 - attempt
decreasing_by omega

/-- NewsApiFetcher.fetchEverything for one page: run the retrying fetch
(from attempt 1) and normalize the delivered articles. -/
def fetchEverything (net : ℕ → HttpResponse) : Except FetchErr (List Article) := do
  let res ← fetchWithRetry net 1
  pure (res.articles.map normalizeNewsApiArticle)

/-- The page loop of NewsApiFetcher.fetchAllPages; `net page attempt` is the
response to the given attempt of the given page, and the fuel argument
counts the pages remaining up to `pageLimit`.  An empty page stops; a page
shorter than `pageSize` is the last page. -/
def fetchPages (net : ℕ → ℕ → HttpResponse) (pageSize : ℕ) :
    ℕ → ℕ → Except FetchErr (List Article)
  | _, 0 => pure []
  | page, fuel + 1 => do
      let batch ← fetchEverything (net page)
      if batch.length = 0 then pure []
      else if batch.length < pageSize then pure batch
      else do
        let rest ← fetchPages net pageSize (page + 1) fuel
        pure (batch ++ rest)

/- ## Deduplication (JS `Map` keyed by identifier / URL) -/

/-- One `map.set(key a, a)` step on a JS `Map` modelled as an association
list in insertion order: an existing key keeps its position and has its
value replaced (last-seen-wins); a new key is appended. -/
def upsert {α κ : Type} [DecidableEq κ] (key : α → κ)
    (m : List (κ × α)) (a : α) : List (κ × α) :=
  if m.any (fun p => decide (p.1 = key a)) then
    m.map (fun p => if p.1 = key a then (key a, a) else p)
  else m ++ [(key a, a)]

/-- `[...map.values()]` after `l.forEach((a) => map.set(key a, a))`. -/
def dedupBy {α κ : Type} [DecidableEq κ] (key : α → κ) (l : List α) : List α :=
  (l.foldl (upsert key) []).map Prod.snd

/-- Lookup in the association-list model of a JS `Map`. -/
def assocFind {α κ : Type} [DecidableEq κ] (m : List (κ × α)) (u : κ) : Option α :=
  (m.find? (fun p => decide (p.1 = u))).map Prod.snd

/-- The last element of `l` whose key is `u` (what last-seen-wins keeps). -/
def lastWith {α κ : Type} [DecidableEq κ] (key : α → κ) (l : List α) (u : κ) :
    Option α :=
  (l.filter (fun x => decide (key x = u))).getLast?

/-- NewsApiFetcher.fetchAllPages: the page loop followed by the per-query
de-duplication by article id. -/
def fetchAllPages (net : ℕ → ℕ → HttpResponse) (pageSize pageLimit : ℕ) :
    Except FetchErr (List Article) := do
  let all ← fetchPages net pageSize 1 pageLimit
  pure (dedupBy (fun a => a.id) all)

/-- The query loop of src/index.ts main: each query is awaited in turn with
no surrounding try/catch, so the first failing query propagates its error
and later queries are never fetched. -/
def fetchQueriesLoop (pageSize pageLimit : ℕ) :
    List (ℕ → ℕ → HttpResponse) → Except FetchErr (List Article)
  | [] => pure []
  | net :: rest => do
      let batch ← fetchAllPages net pageSize pageLimit
      let more ← fetchQueriesLoop pageSize pageLimit rest
      pure (batch ++ more)

/-- src/index.ts main: the concatenated query results de-duplicated by URL
through a JS `Map` (the set handed to enrichment). -/
def mergedUniqueArticles (pageSize pageLimit : ℕ)
    (nets : List (ℕ → ℕ → HttpResponse)) : Except FetchErr (List Article) := do
  let all ← fetchQueriesLoop pageSize pageLimit nets
  pure (dedupBy (fun a => a.url) all)

/- ## Claim 10: forecast intermediates are bounded -/

/-- C10: for every snapshot with non-negative distribution counts the two
scores are clamped to [-1, 1], the combined score lies in [-1, 1], the news
impact multiplier lies in [0.2, 1.8] (not the 0.5 to 2.0 range of the code
comment), and the unrounded predicted change percent has absolute value at
most 3.2 * 1.8 = 5.76. -/
theorem claim10_forecast_bounds (a : AggregatedSummary)
    (_h1 : 0 ≤ a.pidUp) (_h2 : 0 ≤ a.pidDown) (_h3 : 0 ≤ a.pidUncertain)
    (_h4 : 0 ≤ a.sdBullish) (_h5 : 0 ≤ a.sdBearish) (_h6 : 0 ≤ a.sdNeutral) :
    ((-1 : ℚ) ≤ calculateSentimentScore a ∧ calculateSentimentScore a ≤ 1) ∧
    ((-1 : ℚ) ≤ calculatePriceImpactScore a ∧ calculatePriceImpactScore a ≤ 1) ∧
    ((-1 : ℚ) ≤ combinedScore a ∧ combinedScore a ≤ 1) ∧
    ((0.2 : ℚ) ≤ newsImpactMultiplier a ∧ newsImpactMultiplier a ≤ 1.8) ∧
    |rawPredictedChangePercent a| ≤ 5.76 := by
  have hs : (-1 : ℚ) ≤ calculateSentimentScore a ∧ calculateSentimentScore a ≤ 1 := by
    unfold calculateSentimentScore
    dsimp only
    split
    · norm_num
    · exact ⟨le_max_left _ _, max_le (by norm_num) (min_le_left _ _)⟩
  have hp : (-1 : ℚ) ≤ calculatePriceImpactScore a ∧ calculatePriceImpactScore a ≤ 1 := by
    unfold calculatePriceImpactScore
    dsimp only
    split
    · norm_num
    · exact ⟨le_max_left _ _, max_le (by norm_num) (min_le_left _ _)⟩
  have hc : (-1 : ℚ) ≤ combinedScore a ∧ combinedScore a ≤ 1 := by
    unfold combinedScore
    constructor <;> nlinarith [hs.1, hs.2, hp.1, hp.2]
  have hm : (0.2 : ℚ) ≤ newsImpactMultiplier a ∧ newsImpactMultiplier a ≤ 1.8 := by
    unfold newsImpactMultiplier
    constructor <;> nlinarith [hc.1, hc.2]
  refine ⟨hs, hp, hc, hm, ?_⟩
  unfold rawPredictedChangePercent qSign BASELINE_14DAY_VOLATILITY
  rw [abs_le]
  split_ifs <;> constructor <;> nlinarith [hm.1, hm.2]

/-- C10 witness: the bounds instantiated at the concrete example
snapshot. -/
theorem claim10_forecast_bounds_witness :
    ((0 : ℚ) ≤ exampleSnapshot.pidUp ∧ (0 : ℚ) ≤ exampleSnapshot.pidDown ∧
      (0 : ℚ) ≤ exampleSnapshot.pidUncertain ∧ (0 : ℚ) ≤ exampleSnapshot.sdBullish ∧
      (0 : ℚ) ≤ exampleSnapshot.sdBearish ∧ (0 : ℚ) ≤ exampleSnapshot.sdNeutral) ∧
    (((-1 : ℚ) ≤ calculateSentimentScore exampleSnapshot ∧
        calculateSentimentScore exampleSnapshot ≤ 1) ∧
      ((-1 : ℚ) ≤ calculatePriceImpactScore exampleSnapshot ∧
        calculatePriceImpactScore exampleSnapshot ≤ 1) ∧
      ((-1 : ℚ) ≤ combinedScore exampleSnapshot ∧ combinedScore exampleSnapshot ≤ 1) ∧
      ((0.2 : ℚ) ≤ newsImpactMultiplier exampleSnapshot ∧
        newsImpactMultiplier exampleSnapshot ≤ 1.8) ∧
      |rawPredictedChangePercent exampleSnapshot| ≤ 5.76) :=
  ⟨by norm_num [exampleSnapshot],
    claim10_forecast_bounds exampleSnapshot (by norm_num [exampleSnapshot])
      (by norm_num [exampleSnapshot]) (by norm_num [exampleSnapshot])
      (by norm_num [exampleSnapshot]) (by norm_num [exampleSnapshot])
      (by norm_num [exampleSnapshot])⟩

/- ## Claim 3: distribution sum invariant -/

/-- The three price-impact buckets partition the item list. -/
theorem countP_priceDirection_partition (items : List ArticleJudgments) :
    items.countP (fun i => i.priceImpact.direction == .up) +
      items.countP (fun i => i.priceImpact.direction == .down) +
      items.countP (fun i => i.priceImpact.direction == .uncertain) =
      items.length := by
  induction items with
  | nil => rfl
  | cons i t ih =>
      simp only [List.countP_cons, List.length_cons]
      cases h : i.priceImpact.direction <;> simp [h, beq_iff_eq] <;> omega

/-- The three sentiment buckets partition the item list. -/
theorem countP_sentiment_partition (items : List ArticleJudgments) :
    items.countP (fun i => i.classification.sentiment == .bullish) +
      items.countP (fun i => i.classification.sentiment == .bearish) +
      items.countP (fun i => i.classification.sentiment == .neutral) =
      items.length := by
  induction items with
  | nil => rfl
  | cons i t ih =>
      simp only [List.countP_cons, List.length_cons]
      cases h : i.classification.sentiment <;> simp [h, beq_iff_eq] <;> omega

/-- C3 (amended): the sum invariant holds for the locally computed base
metrics and hence for the deterministic fallback path: both bucket sums
equal `totalRelevant` and every bucket count is non-negative.  (On the
oracle-synthesis success path the oracle counts are adopted verbatim and
need not satisfy the invariant; see the counterexample.) -/
theorem claim3_fallback_distribution_invariant
    (items : List ArticleJudgments) (totalFetched : ℕ) :
    ((buildFallbackAggregate items totalFetched).pidUp +
        (buildFallbackAggregate items totalFetched).pidDown +
        (buildFallbackAggregate items totalFetched).pidUncertain =
        (buildFallbackAggregate items totalFetched).totalRelevant) ∧
    ((buildFallbackAggregate items totalFetched).sdBullish +
        (buildFallbackAggregate items totalFetched).sdBearish +
        (buildFallbackAggregate items totalFetched).sdNeutral =
        (buildFallbackAggregate items totalFetched).totalRelevant) ∧
    0 ≤ (buildFallbackAggregate items totalFetched).pidUp ∧
    0 ≤ (buildFallbackAggregate items totalFetched).pidDown ∧
    0 ≤ (buildFallbackAggregate items totalFetched).pidUncertain ∧
    0 ≤ (buildFallbackAggregate items totalFetched).sdBullish ∧
    0 ≤ (buildFallbackAggregate items totalFetched).sdBearish ∧
    0 ≤ (buildFallbackAggregate items totalFetched).sdNeutral := by
  simp only [buildFallbackAggregate, computeBaseMetrics]
  refine ⟨?_, ?_, ?_, ?_, ?_, ?_, ?_, ?_⟩
  · exact_mod_cast countP_priceDirection_partition items
  · exact_mod_cast countP_sentiment_partition items
  all_goals positivity

/-- A judgment element used by the concrete counterexamples. -/
def cJudgments : ArticleJudgments :=
  { relevance :=
      { relevant := true, confidence := .fin 0.9, matchedTerms := ["lithium"],
        rationale := none, automotiveRelevant := true,
        automotiveContextTerms := ["ev"], category := .battery, usage := none }
    classification := { sentiment := .bullish, impact := .up, confidence := .fin 0.8 }
    priceImpact := { direction := .up, confidence := .fin 0.9, drivers := [], reasoning := none } }

/-- An oracle synthesis response whose recount does not sum to the kept
count: it reports five articles up although only one article was kept. -/
def cSynthesisJson : JsonValue :=
  .obj [("priceImpactDistribution", .obj [("up", .num 5)]),
        ("sentimentDistribution", .obj [("bullish", .num 7)])]

/-- C3 counterexample: on the oracle-synthesis success path the adopted
distributions can violate the sum invariant - with one kept item and an
oracle recount of up=5 the produced snapshot has
`pidUp + pidDown + pidUncertain = 5` but `totalRelevant = 1`. -/
theorem claim3_counterexample :
    ((summarizeAggregate true [cJudgments] 1
        (.content (.parseOk cSynthesisJson))).toOption.map
      (fun s => (s.pidUp + s.pidDown + s.pidUncertain, s.totalRelevant))) =
      some (5, 1) ∧ (5 : ℚ) ≠ 1 := by
  constructor
  · with_unfolding_all decide
  · norm_num

/- ## Claim 5: suggestion rule and format -/

/-- C5 (amended): every suggestion produced by the deterministic heuristic
`inferFallbackSuggestion` starts with BUY: / HOLD: / SELL:, ends with the
literal disclaimer, and the BUY / SELL prefixes appear exactly under the
documented majority conditions.  (A suggestion taken from the oracle
synthesis is adopted verbatim, truncated to 140 characters, without any
format validation; see the counterexample.) -/
theorem claim5_fallback_suggestion_format (base : AggregatedSummary) :
    ((inferFallbackSuggestion base).startsWith "BUY:" = true ∨
      (inferFallbackSuggestion base).startsWith "HOLD:" = true ∨
      (inferFallbackSuggestion base).startsWith "SELL:" = true) ∧
    (inferFallbackSuggestion base).endsWith "(informational, not financial advice)" = true ∧
    ((inferFallbackSuggestion base).startsWith "BUY:" = true ↔
      (base.pidUp > base.pidDown ∧ base.sdBullish > base.sdBearish ∧
        base.pidUp ≥ base.pidDown + base.pidUncertain)) ∧
    ((inferFallbackSuggestion base).startsWith "SELL:" = true ↔
      (base.pidDown > base.pidUp ∧ base.sdBearish > base.sdBullish ∧
        base.pidDown ≥ base.pidUp + base.pidUncertain)) := by
  unfold inferFallbackSuggestion
  by_cases hbuy : base.pidUp > base.pidDown ∧ base.sdBullish > base.sdBearish ∧
      base.pidUp ≥ base.pidDown + base.pidUncertain
  · rw [if_pos hbuy]
    refine ⟨Or.inl (by with_unfolding_all decide), by with_unfolding_all decide, ?_, ?_⟩
    · exact ⟨fun _ => hbuy, fun _ => by with_unfolding_all decide⟩
    · have hF : ("BUY" ++ ": heuristic summary based on current distributions (informational, not financial advice)").startsWith "SELL:" = false := by
        with_unfolding_all decide
      rw [hF]
      constructor
      · intro h; exact absurd h (by simp)
      · rintro ⟨hd, -, -⟩
        exact absurd hbuy.1 (by linarith)
  · rw [if_neg hbuy]
    by_cases hsell : base.pidDown > base.pidUp ∧ base.sdBearish > base.sdBullish ∧
        base.pidDown ≥ base.pidUp + base.pidUncertain
    · rw [if_pos hsell]
      refine ⟨Or.inr (Or.inr (by with_unfolding_all decide)),
        by with_unfolding_all decide, ?_, ?_⟩
      · have hF : ("SELL" ++ ": heuristic summary based on current distributions (informational, not financial advice)").startsWith "BUY:" = false := by
          with_unfolding_all decide
        rw [hF]
        constructor
        · intro h; exact absurd h (by simp)
        · intro h; exact absurd h hbuy
      · exact ⟨fun _ => hsell, fun _ => by with_unfolding_all decide⟩
    · rw [if_neg hsell]
      refine ⟨Or.inr (Or.inl (by with_unfolding_all decide)),
        by with_unfolding_all decide, ?_, ?_⟩
      · have hF : ("HOLD" ++ ": heuristic summary based on current distributions (informational, not financial advice)").startsWith "BUY:" = false := by
          with_unfolding_all decide
        rw [hF]
        constructor
        · intro h; exact absurd h (by simp)
        · intro h; exact absurd h hbuy
      · have hF : ("HOLD" ++ ": heuristic summary based on current distributions (informational, not financial advice)").startsWith "SELL:" = false := by
          with_unfolding_all decide
        rw [hF]
        constructor
        · intro h; exact absurd h (by simp)
        · intro h; exact absurd h hsell

/-- An oracle synthesis response carrying a suggestion string that does not
follow the BUY / HOLD / SELL format. -/
def cBadSuggestionJson : JsonValue :=
  .obj [("suggestion", .str "maybe buy, who knows")]

/-- C5 counterexample: a suggestion taken from the oracle synthesis is
adopted verbatim, so the produced snapshot can carry a suggestion that
neither starts with BUY: / HOLD: / SELL: nor ends with the disclaimer. -/
theorem claim5_counterexample :
    ((summarizeAggregate true [cJudgments] 1
        (.content (.parseOk cBadSuggestionJson))).toOption.map
      (fun s => s.suggestion)) = some "maybe buy, who knows" ∧
    "maybe buy, who knows".startsWith "BUY:" = false ∧
    "maybe buy, who knows".startsWith "HOLD:" = false ∧
    "maybe buy, who knows".startsWith "SELL:" = false ∧
    "maybe buy, who knows".endsWith "(informational, not financial advice)" = false := by
  refine ⟨?_, ?_, ?_, ?_, ?_⟩
  · set_option maxRecDepth 5000 in with_unfolding_all decide
  all_goals with_unfolding_all decide

/- ## Claim 4: degrade-not-drop defaults in enrichment -/

/-- An article whose headline contains the bullish keyword "surge". -/
def surgeArticle : Article :=
  { id := "https://example.com/surge", url := "https://example.com/surge",
    source := "wire", title := "Nickel prices surge", description := none,
    publishedAt := none, content := none, author := none, language := some "en" }

/-- A relevance assessment that passes the relevance and automotive
filters. -/
def passingRelevance : RareEarthRelevance :=
  { relevant := true, confidence := .fin 0.9, matchedTerms := ["nickel"],
    rationale := none, automotiveRelevant := true,
    automotiveContextTerms := ["ev"], category := .battery, usage := none }

/-- A successful price-impact assessment used by the counterexample. -/
def upImpact : RareEarthPriceImpact :=
  { direction := .up, confidence := .fin 0.8, drivers := ["supply risk"],
    reasoning := none }

/-- C4 counterexample: when the sentiment-classification call fails for a
kept article, the fallback is the naive keyword baseline over the headline,
not the conservative neutral / flat default - a headline containing "surge"
produces a bullish / up classification at confidence 0.7. -/
theorem claim4_counterexample :
    (processArticle true (surgeArticle,
        { relevance := .ok passingRelevance, classify := .error (),
          impact := .ok upImpact })).map (fun r => r.classification) =
      some { sentiment := .bullish, impact := .up, confidence := .fin 0.7 } := by
  with_unfolding_all decide

/-- C4 (amended): an article whose relevance assessment succeeds and passes
both filters is never dropped; a failed sentiment call falls back to the
naive keyword baseline over the headline (neutral / flat at 0.4 only when no
keyword matches), and a failed price-impact call falls back to the uncertain
low-confidence default. -/
theorem claim4_degrade_not_drop (a : Article) (r : RareEarthRelevance)
    (co : Except Unit Classification) (po : Except Unit RareEarthPriceImpact)
    (hr : r.relevant = true) (ha : r.automotiveRelevant = true) :
    processArticle true (a, { relevance := .ok r, classify := co, impact := po }) =
      some { article := a, relevance := r,
             classification :=
               match co with
               | .ok c => c
               | .error _ => naiveBaseline a.title,
             priceImpact :=
               match po with
               | .ok p => p
               | .error _ =>
                   { direction := .uncertain, confidence := .fin 0.2,
                     drivers := [], reasoning := some "ai_disabled" } } := by
  unfold processArticle ironNewsAnalyzerAnalyze rareEarthAnalyzerPriceImpact
  cases co <;> cases po <;> simp [hr, ha]

/-- C4 witness: the amended statement applied to a concrete kept article
with both oracle calls failing. -/
theorem claim4_degrade_not_drop_witness :
    processArticle true (surgeArticle,
        { relevance := .ok passingRelevance, classify := .error (),
          impact := .error () }) =
      some { article := surgeArticle, relevance := passingRelevance,
             classification := naiveBaseline surgeArticle.title,
             priceImpact :=
               { direction := .uncertain, confidence := .fin 0.2,
                 drivers := [], reasoning := some "ai_disabled" } } :=
  claim4_degrade_not_drop surgeArticle passingRelevance (.error ()) (.error ())
    rfl rfl

/- ## Claim 9: totality of the relevance assessment -/

/-- C9 counterexample: a configured relevance assessment still rejects when
the completion content parses to the JSON literal null, because every member
read of null throws. -/
theorem claim9_counterexample :
    assessRareEarthRelevance (.content (.parseOk .null)) = .error () := by
  rfl

/-- C9 (amended): the relevance assessment rejects exactly on the
null-payload outcome; transport errors (TLS or otherwise) and JSON-parse
failures are converted into returned assessments with `relevant = false`,
`automotiveRelevant = false` and `usage` unset, so those articles are
silently filtered as irrelevant rather than reported as failures. -/
theorem claim9_relevance_conversion :
    (∀ (o : OracleCallOutcome),
      assessRareEarthRelevance o = .error () ↔ o = .content (.parseOk .null)) ∧
    (∀ (tls : Bool) (msg : String),
      (assessRareEarthRelevance (.createError tls msg)).toOption.map
          (fun r => (r.relevant, r.automotiveRelevant, r.usage)) =
        some (false, false, none)) ∧
    ((assessRareEarthRelevance (.content .parseFail)).toOption.map
        (fun r => (r.relevant, r.automotiveRelevant, r.usage)) =
      some (false, false, none)) := by
  refine ⟨?_, ?_, ?_⟩
  · intro o
    cases o with
    | createError tls msg => cases tls <;> simp [assessRareEarthRelevance]
    | content p =>
        cases p with
        | parseFail => simp [assessRareEarthRelevance]
        | parseOk v =>
            cases v <;>
              simp [assessRareEarthRelevance, getProp, Except.bind, bind, pure,
                Except.pure]
  · intro tls msg
    cases tls <;> rfl
  · rfl

/- ## Claim 7: enrichment partial-failure isolation -/

/-- The batch loop processed list equals a plain filterMap over the per
article processing (chunking in groups of 10 neither drops nor duplicates
results). -/
theorem processBatches_eq_filterMap (e : Bool) :
    ∀ (n : ℕ) (l : List (Article × ArticleOracleOutcomes)), l.length ≤ n →
      processBatches e l = l.filterMap (processArticle e) := by
  intro n
  induction n with
  | zero =>
      intro l hl
      have hnil : l = [] := List.eq_nil_of_length_eq_zero (Nat.le_zero.mp hl)
      subst hnil
      simp [processBatches]
  | succ n ih =>
      intro l hl
      match l with
      | [] => simp [processBatches]
      | a :: t =>
          rw [processBatches]
          conv_rhs => rw [← List.take_append_drop BATCH_SIZE (a :: t)]
          rw [List.filterMap_append]
          congr 1
          refine ih _ ?_
          simp only [List.length_drop, List.length_cons, BATCH_SIZE]
          simp only [List.length_cons] at hl
          omega

/-- Does the relevance-assessment outcome of this input reject? -/
def relevanceFailed (p : Article × ArticleOracleOutcomes) : Bool :=
  match p.2.relevance with
  | .error _ => true
  | .ok _ => false

/-- Length of a filterMap as a count. -/
theorem length_filterMap_eq_countP {α β : Type} (f : α → Option β) (l : List α) :
    (l.filterMap f).length = l.countP (fun a => (f a).isSome) := by
  induction l with
  | nil => rfl
  | cons a t ih =>
      cases h : f a <;>
        simp [List.filterMap_cons, h, List.countP_cons, ih]

/-- Counting a predicate and its negation covers the list. -/
theorem countP_not_add_countP {α : Type} (p : α → Bool) (l : List α) :
    l.countP (fun a => !(p a)) + l.countP p = l.length := by
  induction l with
  | nil => rfl
  | cons a t ih =>
      cases h : p a <;> simp [List.countP_cons, h] <;> omega

/-- C7: in a batch of 10 articles that would all pass the relevance and
automotive filters, exactly one failing relevance call yields exactly 9
enriched records - the failure drops only its own article and does not
abort the batch. -/
theorem claim7_partial_failure_isolation
    (inputs : List (Article × ArticleOracleOutcomes))
    (hlen : inputs.length = 10)
    (hfail : inputs.countP relevanceFailed = 1)
    (hpass : ∀ p ∈ inputs, ∀ r, p.2.relevance = .ok r →
      r.relevant = true ∧ r.automotiveRelevant = true) :
    (processBatches true inputs).length = 9 := by
  rw [processBatches_eq_filterMap true inputs.length inputs le_rfl]
  rw [length_filterMap_eq_countP]
  have hcong : inputs.countP (fun p => (processArticle true p).isSome) =
      inputs.countP (fun p => !(relevanceFailed p)) := by
    apply List.countP_congr
    intro p hp
    cases hrel : p.2.relevance with
    | error u => simp [processArticle, relevanceFailed, hrel]
    | ok r =>
        obtain ⟨h1, h2⟩ := hpass p hp r hrel
        simp [processArticle, relevanceFailed, hrel, h1, h2]
  rw [hcong]
  have := countP_not_add_countP relevanceFailed inputs
  omega

/-- A passing input used by the C7 witness. -/
def passInput : Article × ArticleOracleOutcomes :=
  (surgeArticle,
    { relevance := .ok passingRelevance, classify := .ok ⟨.neutral, .flat, .fin 0.5⟩,
      impact := .ok upImpact })

/-- A failing input used by the C7 witness. -/
def failInput : Article × ArticleOracleOutcomes :=
  (surgeArticle,
    { relevance := .error (), classify := .ok ⟨.neutral, .flat, .fin 0.5⟩,
      impact := .ok upImpact })

/-- The 10-article batch of the C7 witness: nine passing inputs and one
whose relevance call rejects. -/
def witnessBatch : List (Article × ArticleOracleOutcomes) :=
  List.replicate 9 passInput ++ [failInput]

/-- C7 witness: the isolation theorem applied to the concrete batch. -/
theorem claim7_partial_failure_isolation_witness :
    witnessBatch.length = 10 ∧ witnessBatch.countP relevanceFailed = 1 ∧
    (processBatches true witnessBatch).length = 9 := by
  refine ⟨by simp [witnessBatch], by with_unfolding_all decide, ?_⟩
  apply claim7_partial_failure_isolation
  · simp [witnessBatch]
  · with_unfolding_all decide
  · intro p hp r hr
    simp only [witnessBatch, List.mem_append, List.mem_replicate,
      List.mem_singleton] at hp
    rcases hp with ⟨-, rfl⟩ | rfl
    · simp only [passInput] at hr
      cases hr
      exact ⟨rfl, rfl⟩
    · simp only [failInput] at hr
      cases hr

/- ## Claim 1: query failure aborts the fetch loop -/

/-- A query endpoint that answers every attempt of every page with a 429
rate-limit response. -/
def rateLimitedNet : ℕ → ℕ → HttpResponse := fun _ _ => ⟨429, "rate limited", []⟩

/-- The raw article served by the healthy query endpoint. -/
def goodRaw : RawArticle :=
  { url := "https://example.com/a1", sourceName := some "wire",
    title := some "Lithium output", description := none, publishedAt := none,
    content := none, author := none }

/-- A query endpoint that answers every request successfully with one
article. -/
def healthyNet : ℕ → ℕ → HttpResponse := fun _ _ => ⟨200, "", [goodRaw]⟩

/-- C1 counterexample: with two configured queries, the first exhausting its
rate-limit retries, the healthy second query would succeed on its own, yet
the merged run returns the rate-limit error - the remaining query is never
completed and no merged article set is produced, contradicting the claimed
failure isolation. -/
theorem claim1_counterexample :
    fetchAllPages healthyNet 100 1 = .ok [normalizeNewsApiArticle goodRaw] ∧
    mergedUniqueArticles 100 1 [rateLimitedNet, healthyNet] =
      .error .rateLimitExceeded := by
  constructor
  · simp [fetchAllPages, fetchPages, fetchEverything, fetchWithRetry,
      healthyNet, HttpResponse.ok, Except.bind, bind, pure, Except.pure,
      dedupBy, upsert, goodRaw, normalizeNewsApiArticle]
  · simp [mergedUniqueArticles, fetchQueriesLoop, fetchAllPages, fetchPages,
      fetchEverything, fetchWithRetry, rateLimitedNet, HttpResponse.ok,
      Except.bind, bind, pure, Except.pure]

/-- C1 (amended): retry exhaustion on 429 responses surfaces
`rateLimitExceeded` after the fourth attempt, a non-success non-429 response
surfaces `upstreamError` with its status and body, and such a failure
propagates out of the unguarded query loop of `main`: the queries after the
failing one are never fetched and the whole fetch phase (hence the run)
aborts with that error; results are merged and de-duplicated only when every
query succeeds. -/
theorem claim1_failure_propagation :
    (∀ (net : ℕ → HttpResponse), (∀ k, (net k).status = 429) →
      fetchWithRetry net 1 = .error .rateLimitExceeded) ∧
    (∀ (net : ℕ → HttpResponse) (attempt : ℕ),
      (net attempt).status ≠ 429 → (net attempt).ok = false →
      fetchWithRetry net attempt =
        .error (.upstreamError (net attempt).status (net attempt).body)) ∧
    (∀ (pre : List (ℕ → ℕ → HttpResponse)) (bad : ℕ → ℕ → HttpResponse)
        (post : List (ℕ → ℕ → HttpResponse)) (pageSize pageLimit : ℕ)
        (e : FetchErr),
      (∀ net ∈ pre, ∃ arts, fetchAllPages net pageSize pageLimit = .ok arts) →
      fetchAllPages bad pageSize pageLimit = .error e →
      fetchQueriesLoop pageSize pageLimit (pre ++ bad :: post) = .error e) := by
  refine ⟨?_, ?_, ?_⟩
  · intro net h
    simp [fetchWithRetry, h]
  · intro net attempt h1 h2
    rw [fetchWithRetry]
    simp [h1, h2]
  · intro pre
    induction pre with
    | nil =>
        intro bad post pageSize pageLimit e _ hbad
        simp [fetchQueriesLoop, hbad, Except.bind, bind]
    | cons n pre ih =>
        intro bad post pageSize pageLimit e hok hbad
        obtain ⟨arts, hn⟩ := hok n (List.mem_cons_self n pre)
        have hrest := ih bad post pageSize pageLimit e
          (fun m hm => hok m (List.mem_cons_of_mem n hm)) hbad
        simp [fetchQueriesLoop, hn, hrest, Except.bind, bind]

/-- C1 witness: the propagation statement applied to the concrete healthy
and rate-limited endpoints. -/
theorem claim1_failure_propagation_witness :
    fetchQueriesLoop 100 1 [healthyNet, rateLimitedNet, healthyNet] =
      .error .rateLimitExceeded := by
  have hgood : fetchAllPages healthyNet 100 1 = .ok [normalizeNewsApiArticle goodRaw] := by
    simp [fetchAllPages, fetchPages, fetchEverything, fetchWithRetry,
      healthyNet, HttpResponse.ok, Except.bind, bind, pure, Except.pure,
      dedupBy, upsert, goodRaw, normalizeNewsApiArticle]
  have hbad : fetchAllPages rateLimitedNet 100 1 = .error .rateLimitExceeded := by
    simp [fetchAllPages, fetchPages, fetchEverything, fetchWithRetry,
      rateLimitedNet, HttpResponse.ok, Except.bind, bind, pure, Except.pure]
  exact claim1_failure_propagation.2.2 [healthyNet] rateLimitedNet [healthyNet]
    100 1 .rateLimitExceeded
    (by intro net hm; simp only [List.mem_singleton] at hm; subst hm
        exact ⟨_, hgood⟩) hbad

/- ## Claim 8: deduplication by canonical identifier -/

section DedupProofs

variable {α κ : Type} [DecidableEq κ]

/-- Association lookup on a cons cell. -/
theorem assocFind_cons (p : κ × α) (m : List (κ × α)) (u : κ) :
    assocFind (p :: m) u = if p.1 = u then some p.2 else assocFind m u := by
  by_cases hp : p.1 = u
  · rw [assocFind, List.find?_cons_of_pos _ (by simpa using hp), if_pos hp]
    rfl
  · rw [assocFind, List.find?_cons_of_neg _ (by simpa using hp), if_neg hp]
    rfl

/-- Association lookup after appending a fresh entry. -/
theorem assocFind_append_single (m : List (κ × α)) (k : κ) (b : α) (u : κ) :
    assocFind (m ++ [(k, b)]) u =
      match assocFind m u with
      | some x => some x
      | none => if u = k then some b else none := by
  induction m with
  | nil =>
      by_cases hk : u = k
      · subst hk
        simp [assocFind]
      · have hk2 : ¬(k = u) := fun h => hk h.symm
        simp [assocFind, hk, hk2]
  | cons p t ih =>
      rw [List.cons_append, assocFind_cons, assocFind_cons]
      by_cases hp : p.1 = u
      · simp [hp]
      · simp only [if_neg hp]
        exact ih

/-- Association lookup after the in-place update that `upsert` performs on
an existing key. -/
theorem assocFind_map_update (m : List (κ × α)) (k : κ) (b : α) (u : κ) :
    assocFind (m.map (fun p => if p.1 = k then (k, b) else p)) u =
      if u = k then
        (if m.any (fun p => decide (p.1 = k)) then some b else none)
      else assocFind m u := by
  induction m with
  | nil => by_cases hu : u = k <;> simp [assocFind, hu]
  | cons p t ih =>
      by_cases hp : p.1 = k <;> by_cases hu : u = k
      · subst hu
        simp [List.map_cons, hp, assocFind_cons, ih, List.any_cons]
      · have hku : ¬(k = u) := fun h => hu h.symm
        have hpu : ¬(p.1 = u) := by rw [hp]; exact hku
        simp [List.map_cons, hp, assocFind_cons, ih, hu, hku, hpu]
      · subst hu
        simp [List.map_cons, hp, assocFind_cons, ih, List.any_cons]
        rw [decide_eq_false hp, Bool.false_or]
      · simp [List.map_cons, hp, assocFind_cons, ih, hu]

/-- Association lookup after one `upsert`: the new value wins on its own
key and nothing else changes. -/
theorem assocFind_upsert (key : α → κ) (m : List (κ × α)) (a : α) (u : κ) :
    assocFind (upsert key m a) u =
      if u = key a then some a else assocFind m u := by
  unfold upsert
  by_cases hany : m.any (fun p => decide (p.1 = key a))
  · rw [if_pos hany, assocFind_map_update]
    by_cases hu : u = key a
    · simp [hu, hany]
    · simp [hu]
  · rw [if_neg hany, assocFind_append_single]
    have hnone : ∀ v, v = key a → assocFind m v = none := by
      intro v hv
      subst hv
      rw [assocFind, List.find?_eq_none.mpr, Option.map_none']
      intro x hx
      simp only [List.any_eq_true, not_exists, not_and] at hany
      simpa using hany x hx
    by_cases hu : u = key a
    · rw [hnone u hu, if_pos hu]
    · cases h : assocFind m u
      · simp [h, hu]
      · simp [h, hu]

/-- `getLast?` of a cons cell in match form. -/
theorem getLast?_cons_eq {β : Type} (a : β) (l : List β) :
    (a :: l).getLast? =
      match l.getLast? with
      | some b => some b
      | none => some a := by
  cases l with
  | nil => rfl
  | cons b t =>
      rw [List.getLast?_cons_cons]
      have h : (b :: t).getLast?.isSome := by
        rw [List.getLast?_isSome]
        exact List.cons_ne_nil b t
      obtain ⟨x, hx⟩ := Option.isSome_iff_exists.mp h
      rw [hx]

/-- `lastWith` on a cons cell. -/
theorem lastWith_cons (key : α → κ) (a : α) (t : List α) (u : κ) :
    lastWith key (a :: t) u =
      match lastWith key t u with
      | some b => some b
      | none => if key a = u then some a else none := by
  unfold lastWith
  rw [List.filter_cons]
  by_cases ha : key a = u
  · rw [if_pos (by simp [ha]), getLast?_cons_eq]
    cases h : (t.filter fun x => decide (key x = u)).getLast? <;> simp [h, ha]
  · rw [if_neg (by simp [ha])]
    cases h : (t.filter fun x => decide (key x = u)).getLast? <;> simp [h, ha]

/-- Lookup in the folded map is the last matching input element. -/
theorem assocFind_foldl_upsert (key : α → κ) :
    ∀ (l : List α) (m : List (κ × α)) (u : κ),
      assocFind (l.foldl (upsert key) m) u =
        match lastWith key l u with
        | some b => some b
        | none => assocFind m u := by
  intro l
  induction l with
  | nil =>
      intro m u
      simp [lastWith, assocFind]
  | cons a t ih =>
      intro m u
      rw [List.foldl_cons, ih, lastWith_cons]
      cases h : lastWith key t u with
      | some b => rfl
      | none =>
          simp only []
          rw [assocFind_upsert]
          by_cases hu : u = key a
          · rw [if_pos hu, if_pos hu.symm]
          · rw [if_neg hu, if_neg (fun h2 => hu h2.symm)]

/-- The keys of the map after one `upsert`. -/
theorem upsert_fst_eq (key : α → κ) (m : List (κ × α)) (a : α) :
    (upsert key m a).map Prod.fst =
      if m.any (fun p => decide (p.1 = key a)) then m.map Prod.fst
      else m.map Prod.fst ++ [key a] := by
  unfold upsert
  split
  · rw [List.map_map]
    congr 1
    funext p
    by_cases hp : p.1 = key a <;> simp [hp]
  · simp

/-- One `upsert` preserves distinctness of keys. -/
theorem upsert_keys_nodup (key : α → κ) (m : List (κ × α)) (a : α)
    (h : (m.map Prod.fst).Nodup) : ((upsert key m a).map Prod.fst).Nodup := by
  rw [upsert_fst_eq]
  by_cases hany : m.any (fun p => decide (p.1 = key a))
  · rw [if_pos hany]
    exact h
  · rw [if_neg hany]
    refine List.Nodup.append h (List.nodup_singleton _) ?_
    intro x hx hxs
    simp only [List.mem_singleton] at hxs
    subst hxs
    obtain ⟨p, hp, hpx⟩ := List.mem_map.mp hx
    simp only [List.any_eq_true, not_exists, not_and] at hany
    exact absurd (by simpa using hpx) (by simpa using hany p hp)

/-- Folding preserves distinctness of keys. -/
theorem foldl_upsert_keys_nodup (key : α → κ) :
    ∀ (l : List α) (m : List (κ × α)), (m.map Prod.fst).Nodup →
      ((l.foldl (upsert key) m).map Prod.fst).Nodup := by
  intro l
  induction l with
  | nil => intro m h; exact h
  | cons a t ih =>
      intro m h
      exact ih _ (upsert_keys_nodup key m a h)

/-- Every stored value carries its own key after one `upsert`. -/
theorem upsert_entry_key (key : α → κ) (m : List (κ × α)) (a : α)
    (h : ∀ p ∈ m, key p.2 = p.1) : ∀ p ∈ upsert key m a, key p.2 = p.1 := by
  unfold upsert
  split
  · intro p hp
    obtain ⟨q, hq, rfl⟩ := List.mem_map.mp hp
    by_cases hqk : q.1 = key a <;> simp [hqk, h q hq]
  · intro p hp
    rcases List.mem_append.mp hp with h1 | h2
    · exact h p h1
    · simp only [List.mem_singleton] at h2
      subst h2
      rfl

/-- Every stored value carries its own key after folding. -/
theorem foldl_upsert_entry_key (key : α → κ) :
    ∀ (l : List α) (m : List (κ × α)), (∀ p ∈ m, key p.2 = p.1) →
      ∀ p ∈ l.foldl (upsert key) m, key p.2 = p.1 := by
  intro l
  induction l with
  | nil => intro m h; exact h
  | cons a t ih =>
      intro m h
      exact ih _ (upsert_entry_key key m a h)

/-- With distinct keys, membership determines the lookup result. -/
theorem assocFind_of_mem (m : List (κ × α)) (p : κ × α)
    (hnd : (m.map Prod.fst).Nodup) (hp : p ∈ m) : assocFind m p.1 = some p.2 := by
  induction m with
  | nil => cases hp
  | cons q t ih =>
      simp only [List.map_cons, List.nodup_cons] at hnd
      rcases List.mem_cons.mp hp with rfl | hmem
      · simp [assocFind_cons]
      · rw [assocFind_cons]
        have hne : ¬(q.1 = p.1) := by
          intro hq
          exact hnd.1 (hq ▸ List.mem_map_of_mem Prod.fst hmem)
        rw [if_neg hne]
        exact ih hnd.2 hmem

/-- An element delivered by `getLast?` is a member. -/
theorem mem_of_getLast?_eq_some {β : Type} :
    ∀ {l : List β} {x : β}, l.getLast? = some x → x ∈ l := by
  intro l
  induction l with
  | nil => intro x h; cases h
  | cons a t ih =>
      intro x h
      rw [getLast?_cons_eq] at h
      cases hg : t.getLast? with
      | some b =>
          rw [hg] at h
          cases h
          exact List.mem_cons_of_mem _ (ih hg)
      | none =>
          rw [hg] at h
          cases h
          exact List.mem_cons_self _ _

omit [DecidableEq κ] in
/-- The values of the folded map, keyed through `key`, are its keys. -/
theorem map_key_values_eq_keys (key : α → κ) :
    ∀ (m : List (κ × α)), (∀ p ∈ m, key p.2 = p.1) →
      (m.map Prod.snd).map key = m.map Prod.fst := by
  intro m
  induction m with
  | nil => intro _; rfl
  | cons p t ih =>
      intro h
      simp only [List.map_cons]
      rw [h p (List.mem_cons_self p t),
        ih (fun q hq => h q (List.mem_cons_of_mem p hq))]

end DedupProofs

/-- C8: the merged article set is de-duplicated by the URL-derived
identifier.  The normalizer makes `id = url`; after `dedupBy (·.url)` no URL
appears twice, every kept article is the last input article with its URL
(last-seen-wins), and every URL present in the input is represented by
exactly one kept article. -/
theorem claim8_dedup_by_identifier :
    (∀ raw : RawArticle,
      (normalizeNewsApiArticle raw).id = (normalizeNewsApiArticle raw).url) ∧
    (∀ (l : List Article),
      ((dedupBy (fun a => a.url) l).map (fun a => a.url)).Nodup ∧
      (∀ b ∈ dedupBy (fun a => a.url) l,
        b ∈ l ∧ lastWith (fun a => a.url) l b.url = some b) ∧
      (∀ u, (∃ a ∈ l, a.url = u) →
        ∃ b ∈ dedupBy (fun a => a.url) l, b.url = u)) := by
  constructor
  · intro raw
    rfl
  · intro l
    set key : Article → String := fun a => a.url with hkey
    set m : List (String × Article) := l.foldl (upsert key) [] with hm
    have hnd : (m.map Prod.fst).Nodup := by
      rw [hm]
      exact foldl_upsert_keys_nodup key l [] (by simp)
    have hek : ∀ p ∈ m, key p.2 = p.1 := by
      rw [hm]
      exact foldl_upsert_entry_key key l [] (by simp)
    have hfind : ∀ u, assocFind m u = lastWith key l u := by
      intro u
      rw [hm, assocFind_foldl_upsert]
      cases h : lastWith key l u <;> simp [assocFind]
    have hdd : dedupBy key l = m.map Prod.snd := by
      rw [dedupBy, hm]
    refine ⟨?_, ?_, ?_⟩
    · rw [hdd]
      have : (m.map Prod.snd).map key = m.map Prod.fst :=
        map_key_values_eq_keys key m hek
      simpa [this] using hnd
    · intro b hb
      rw [hdd] at hb
      obtain ⟨p, hp, rfl⟩ := List.mem_map.mp hb
      have hkb : key p.2 = p.1 := hek p hp
      have h1 : assocFind m p.1 = some p.2 := assocFind_of_mem m p hnd hp
      have h2 : lastWith key l (key p.2) = some p.2 := by
        rw [hkb, ← hfind]
        exact h1
      constructor
      · have := mem_of_getLast?_eq_some h2
        exact List.mem_of_mem_filter this
      · exact h2
    · intro u hu
      obtain ⟨a, ha, hau⟩ := hu
      have hne : l.filter (fun x => decide (key x = u)) ≠ [] := by
        intro hempty
        have : a ∈ l.filter (fun x => decide (key x = u)) :=
          List.mem_filter.mpr ⟨ha, by simpa [hkey] using hau⟩
        rw [hempty] at this
        cases this
      have hsome : (l.filter (fun x => decide (key x = u))).getLast?.isSome := by
        rw [List.getLast?_isSome]
        exact hne
      obtain ⟨b, hb⟩ := Option.isSome_iff_exists.mp hsome
      have hlast : lastWith key l u = some b := hb
      have hbf : b ∈ l.filter (fun x => decide (key x = u)) :=
        mem_of_getLast?_eq_some hb
      have hbu : key b = u := by
        have := (List.mem_filter.mp hbf).2
        simpa using this
      have hfb : assocFind m u = some b := by
        rw [hfind u, hlast]
      obtain ⟨q, hq, hq2⟩ : ∃ q, m.find? (fun p => decide (p.1 = u)) = some q ∧ q.2 = b := by
        rw [assocFind] at hfb
        cases hfq : m.find? (fun p => decide (p.1 = u)) with
        | none => rw [hfq] at hfb; cases hfb
        | some q =>
            rw [hfq] at hfb
            exact ⟨q, rfl, by simpa using hfb⟩
      refine ⟨b, ?_, hbu⟩
      rw [hdd]
      rw [← hq2]
      exact List.mem_map_of_mem Prod.snd (List.mem_of_find?_eq_some hq)

/-- The two same-URL articles of the C8 witness. -/
def dupFirst : Article :=
  { id := "https://example.com/dup", url := "https://example.com/dup",
    source := "s1", title := "first copy", description := none,
    publishedAt := none, content := none, author := none, language := some "en" }

/-- The later duplicate, which last-seen-wins keeps. -/
def dupSecond : Article :=
  { id := "https://example.com/dup", url := "https://example.com/dup",
    source := "s2", title := "second copy", description := none,
    publishedAt := none, content := none, author := none, language := some "en" }

/-- C8 witness: the dedup theorem applied to a concrete two-element merge
with a shared identifier. -/
theorem claim8_dedup_by_identifier_witness :
    ((dedupBy (fun a => a.url) [dupFirst, dupSecond]).map (fun a => a.url)).Nodup ∧
    (∃ b ∈ dedupBy (fun a => a.url) [dupFirst, dupSecond],
      b.url = "https://example.com/dup") :=
  ⟨(claim8_dedup_by_identifier.2 [dupFirst, dupSecond]).1,
    (claim8_dedup_by_identifier.2 [dupFirst, dupSecond]).2.2
      "https://example.com/dup"
      ⟨dupFirst, List.mem_cons_self dupFirst [dupSecond], rfl⟩⟩
